import Mathlib

/-!
Shallow embedding of the BlackRoad Power Manager (src/power_manager.py).
Numbers are modelled as rationals; the Python round function is modelled as
round-half-to-even at a given number of decimal places.  Timestamps are
modelled as a monotonically increasing natural-number clock; uuid keys are
modelled by a natural-number counter.  The SQLite store is modelled as an
explicit DB state; each with-db_conn block of the source is one atomic state
update.
-/

/-- Round a rational to the nearest integer, half to even. -/
def halfEven (y : ℚ) : ℤ :=
  if y - (⌊y⌋ : ℚ) < 1/2 then ⌊y⌋
  else if 1/2 < y - (⌊y⌋ : ℚ) then ⌊y⌋ + 1
  else if ⌊y⌋ % 2 = 0 then ⌊y⌋ else ⌊y⌋ + 1

/-- Python round(x, n): round half to even at n decimal places. -/
def pyRound (x : ℚ) (n : ℕ) : ℚ := (halfEven (x * 10 ^ n) : ℚ) / 10 ^ n

inductive MeterType where
  | main | battery | solar | ups
deriving DecidableEq

inductive PowerEventType where
  | charge_start | discharge | low_battery | shutdown | restore
deriving DecidableEq

inductive PowerState where
  | normal | low | critical | charging | unknown
deriving DecidableEq

def MeterType.ofString : String → Option MeterType
  | "main" => some MeterType.main
  | "battery" => some MeterType.battery
  | "solar" => some MeterType.solar
  | "ups" => some MeterType.ups
  | _ => none

def PowerEventType.ofString : String → Option PowerEventType
  | "charge_start" => some PowerEventType.charge_start
  | "discharge" => some PowerEventType.discharge
  | "low_battery" => some PowerEventType.low_battery
  | "shutdown" => some PowerEventType.shutdown
  | "restore" => some PowerEventType.restore
  | _ => none

def LOW_BATTERY_THRESHOLD : ℚ := 20

def CRITICAL_BATTERY_THRESHOLD : ℚ := 5

structure PowerMeter where
  id : ℕ
  device_id : String
  type : MeterType
  voltage : ℚ
  current_draw : ℚ
  capacity_wh : ℚ
  charge_pct : ℚ
  name : Option String
deriving DecidableEq

/-- PowerMeter.wattage property. -/
def PowerMeter.wattage (m : PowerMeter) : ℚ :=
  pyRound (m.voltage * m.current_draw) 4

/-- PowerMeter.state property. -/
def PowerMeter.state (m : PowerMeter) : PowerState :=
  if m.type = MeterType.solar then PowerState.charging
  else if m.charge_pct ≤ CRITICAL_BATTERY_THRESHOLD then PowerState.critical
  else if m.charge_pct ≤ LOW_BATTERY_THRESHOLD then PowerState.low
  else if 95 ≤ m.charge_pct then PowerState.charging
  else PowerState.normal

structure PowerReading where
  id : ℕ
  meter_id : ℕ
  voltage : ℚ
  current_draw : ℚ
  wattage : ℚ
  charge_pct : ℚ
  timestamp : ℕ
deriving DecidableEq

structure PowerEvent where
  id : ℕ
  device_id : String
  type : PowerEventType
  value : ℚ
  timestamp : ℕ
  note : Option String
deriving DecidableEq

structure DeviceRecord where
  id : String
  name : String
  shutdown_threshold : ℚ
  target_wh : Option ℚ
deriving DecidableEq

/-- The persistent store: the four tables, plus the uuid and clock sources. -/
structure DB where
  devices : List DeviceRecord
  meters : List PowerMeter
  readings : List PowerReading
  events : List PowerEvent
  nextId : ℕ
  clock : ℕ
deriving DecidableEq

inductive Err where
  | notFound (msg : String)
  | invalidEnum (msg : String)
deriving DecidableEq

def errMsg : Err → String
  | Err.notFound s => "Not found: " ++ s
  | Err.invalidEnum s => "Invalid enum: " ++ s

def get_device (db : DB) (device_id : String) : Except Err DeviceRecord :=
  match db.devices.find? (fun d => decide (d.id = device_id)) with
  | some d => Except.ok d
  | none => Except.error (Err.notFound device_id)

def register_device (db : DB) (device_id name : String) (shutdown_threshold : ℚ)
    (target_wh : Option ℚ) : Except Err DeviceRecord × DB :=
  let db' : DB := { db with
    devices := db.devices.filter (fun d => !(decide (d.id = device_id))) ++
      [⟨device_id, name, shutdown_threshold, target_wh⟩] }
  match get_device db' device_id with
  | Except.ok d => (Except.ok d, db')
  | Except.error e => (Except.error e, db')

def get_meter (db : DB) (meter_id : ℕ) : Except Err PowerMeter :=
  match db.meters.find? (fun m => decide (m.id = meter_id)) with
  | some m => Except.ok m
  | none => Except.error (Err.notFound (toString meter_id))

def add_meter (db : DB) (device_id : String) (meter_type : String) (capacity_wh : ℚ)
    (name : Option String) : Except Err (PowerMeter × DB) :=
  match get_device db device_id with
  | Except.error e => Except.error e
  | Except.ok _ =>
    match MeterType.ofString meter_type with
    | none => Except.error (Err.invalidEnum meter_type)
    | some t =>
      let db' : DB := { db with
        meters := db.meters ++ [⟨db.nextId, device_id, t, 0, 0, capacity_wh, 100, name⟩],
        nextId := db.nextId + 1 }
      match get_meter db' db.nextId with
      | Except.ok m => Except.ok (m, db')
      | Except.error e => Except.error e

/-- list_meters with the Python truthiness test on the optional filter:
an empty-string device id is falsy, so the listing is unfiltered. -/
def list_meters (db : DB) (device_id : Option String) : List PowerMeter :=
  match device_id with
  | none => db.meters
  | some d =>
    if d = "" then db.meters
    else db.meters.filter (fun m => decide (m.device_id = d))

def clamp (x : ℚ) : ℚ := max 0 (min 100 x)

def low_battery_name : String := "low_battery"

def discharge_name : String := "discharge"

def trigger_event (db : DB) (device_id : String) (event_type : String) (value : ℚ)
    (note : Option String) : Except Err (PowerEvent × DB) :=
  match get_device db device_id with
  | Except.error e => Except.error e
  | Except.ok _ =>
    match PowerEventType.ofString event_type with
    | none => Except.error (Err.invalidEnum event_type)
    | some t =>
      let e : PowerEvent := ⟨db.nextId, device_id, t, value, db.clock, note⟩
      Except.ok (e, { db with events := db.events ++ [e],
                              nextId := db.nextId + 1, clock := db.clock + 1 })

/-- The first with-db_conn block of log_power: insert the Reading and
overwrite the live fields of the Meter, committed together. -/
def log_power_txn1 (db : DB) (meter_id : ℕ) (voltage current : ℚ)
    (charge_pct : Option ℚ) : Except Err (PowerReading × PowerMeter × DB) :=
  match get_meter db meter_id with
  | Except.error e => Except.error e
  | Except.ok meter =>
    let wattage := pyRound (voltage * current) 4
    let pct := clamp (charge_pct.getD meter.charge_pct)
    let r : PowerReading := ⟨db.nextId, meter_id, voltage, current, wattage, pct, db.clock⟩
    let db' : DB := { db with
      readings := db.readings ++ [r],
      meters := db.meters.map (fun m =>
        if m.id = meter_id then
          { m with voltage := voltage, current_draw := current, charge_pct := pct }
        else m),
      nextId := db.nextId + 1,
      clock := db.clock + 1 }
    Except.ok (r, meter, db')

/-- log_power: first transaction, then the auto-event rules, each auto event
being a separate trigger_event call (its own transaction).  The returned DB
is whatever has committed when the call returns or raises. -/
def log_power (db : DB) (meter_id : ℕ) (voltage current : ℚ)
    (charge_pct : Option ℚ) : Except Err PowerReading × DB :=
  match log_power_txn1 db meter_id voltage current charge_pct with
  | Except.error e => (Except.error e, db)
  | Except.ok (r, meter, db1) =>
    if meter.type = MeterType.battery then
      if r.charge_pct ≤ CRITICAL_BATTERY_THRESHOLD then
        match trigger_event db1 meter.device_id low_battery_name r.charge_pct none with
        | Except.error e => (Except.error e, db1)
        | Except.ok (_, db2) => (Except.ok r, db2)
      else if r.charge_pct ≤ LOW_BATTERY_THRESHOLD then
        match trigger_event db1 meter.device_id discharge_name r.charge_pct none with
        | Except.error e => (Except.error e, db1)
        | Except.ok (_, db2) => (Except.ok r, db2)
      else (Except.ok r, db1)
    else (Except.ok r, db1)

/-- The sequence of committed store states observable during one log_power
call: the state before the call, the state after each committed transaction. -/
def log_power_observable (db : DB) (meter_id : ℕ) (voltage current : ℚ)
    (charge_pct : Option ℚ) : List DB :=
  match log_power_txn1 db meter_id voltage current charge_pct with
  | Except.error _ => [db]
  | Except.ok (_, _, db1) =>
    [db, db1, (log_power db meter_id voltage current charge_pct).2]

def calculate_wattage (db : DB) (meter_id : ℕ) : Except Err ℚ :=
  match get_meter db meter_id with
  | Except.error e => Except.error e
  | Except.ok m => Except.ok m.wattage

def estimate_runtime (db : DB) (device_id : String) : Option ℚ :=
  let meters := list_meters db (some device_id)
  let battery_meters := meters.filter
    (fun m => decide (m.type = MeterType.battery) && decide (0 < m.current_draw))
  match battery_meters with
  | [] => none
  | bm :: _ =>
    let remaining_wh := bm.capacity_wh * (bm.charge_pct / 100)
    if bm.wattage ≤ 0 then none
    else some (pyRound (remaining_wh / bm.wattage) 2)

def eventDesc (a b : PowerEvent) : Prop := b.timestamp ≤ a.timestamp

instance : DecidableRel eventDesc := fun a b => Nat.decLe b.timestamp a.timestamp

instance : IsTotal PowerEvent eventDesc :=
  ⟨fun a b => (Nat.le_total b.timestamp a.timestamp).imp id id⟩

instance : IsTrans PowerEvent eventDesc :=
  ⟨fun _ _ _ hab hbc => Nat.le_trans hbc hab⟩

def get_events (db : DB) (device_id : String) (limit : ℕ) : List PowerEvent :=
  (List.insertionSort eventDesc
    (db.events.filter (fun e => decide (e.device_id = device_id)))).take limit

def readingAsc (a b : PowerReading) : Prop := a.timestamp ≤ b.timestamp

instance : DecidableRel readingAsc := fun a b => Nat.decLe a.timestamp b.timestamp

instance : IsTotal PowerReading readingAsc :=
  ⟨fun a b => (Nat.le_total a.timestamp b.timestamp).imp id id⟩

instance : IsTrans PowerReading readingAsc :=
  ⟨fun _ _ _ hab hbc => Nat.le_trans hab hbc⟩

def get_history (db : DB) (meter_id : ℕ) (hours : ℕ) : List PowerReading :=
  let since := db.clock - hours
  List.insertionSort readingAsc
    (db.readings.filter
      (fun r => decide (r.meter_id = meter_id) && decide (since ≤ r.timestamp)))

inductive BudgetResult where
  | entry (total_wattage : ℚ) (battery_count solar_count : ℕ)
      (avg_charge_pct : Option ℚ) (estimated_runtime_hours : Option ℚ)
      (states : List PowerState)
  | failure (msg : String)
deriving DecidableEq

def budget_check_one (db : DB) (dev_id : String) : BudgetResult :=
  match get_device db dev_id with
  | Except.error e => BudgetResult.failure (errMsg e)
  | Except.ok _ =>
    let meters := list_meters db (some dev_id)
    let total_wattage := (meters.map PowerMeter.wattage).sum
    let battery_meters := meters.filter (fun m => decide (m.type = MeterType.battery))
    let solar_meters := meters.filter (fun m => decide (m.type = MeterType.solar))
    let runtime := estimate_runtime db dev_id
    BudgetResult.entry (pyRound total_wattage 4) battery_meters.length solar_meters.length
      (if battery_meters.isEmpty then none
       else some (pyRound ((battery_meters.map PowerMeter.charge_pct).sum /
           (battery_meters.length : ℚ)) 2))
      runtime (meters.map PowerMeter.state)

/-- power_budget_check builds a dict keyed by device id; the dict is
modelled as the lookup function it denotes. -/
def power_budget_check (db : DB) (device_ids : List String) :
    String → Option BudgetResult :=
  device_ids.foldl
    (fun results dev_id k =>
      if k = dev_id then some (budget_check_one db dev_id) else results k)
    (fun _ => none)

def qListMax : List ℚ → ℚ
  | [] => 0
  | x :: xs => xs.foldl max x

def qListMin : List ℚ → ℚ
  | [] => 0
  | x :: xs => xs.foldl min x

inductive MeterReport where
  | withReadings (meter_id : ℕ) (mtype : MeterType) (current_state : PowerState)
      (avg_wattage max_wattage min_charge_pct : ℚ) (reading_count : ℕ)
  | noReadings (meter_id : ℕ) (mtype : MeterType)
deriving DecidableEq

def meter_report (db : DB) (days : ℕ) (m : PowerMeter) : MeterReport :=
  let readings := get_history db m.id (days * 24)
  match readings with
  | [] => MeterReport.noReadings m.id m.type
  | _ =>
    let wattages := readings.map PowerReading.wattage
    let charges := readings.map PowerReading.charge_pct
    MeterReport.withReadings m.id m.type m.state
      (pyRound (wattages.sum / (readings.length : ℚ)) 4)
      (qListMax wattages) (qListMin charges) readings.length

structure Report where
  device_id : String
  period_days : ℕ
  generated_at : ℕ
  meters : List MeterReport
  event_count : ℕ
  events : List PowerEvent
deriving DecidableEq

def export_report (db : DB) (device_id : String) (days : ℕ) : Except Err Report :=
  match get_device db device_id with
  | Except.error e => Except.error e
  | Except.ok _ =>
    let meters := list_meters db (some device_id)
    let events := get_events db device_id 200
    Except.ok { device_id := device_id, period_days := days, generated_at := db.clock,
                meters := meters.map (meter_report db days),
                event_count := events.length, events := events.take 20 }

/-- One public mutating operation of the manager. -/
inductive Op where
  | register (device_id name : String) (threshold : ℚ) (target : Option ℚ)
  | addMeter (device_id meter_type : String) (capacity : ℚ) (name : Option String)
  | logPower (meter_id : ℕ) (voltage current : ℚ) (charge_pct : Option ℚ)
  | trigger (device_id event_type : String) (value : ℚ) (note : Option String)

/-- The store state after one operation; a failed operation keeps whatever
it had committed before failing. -/
def step (db : DB) : Op → DB
  | Op.register d n t tw => (register_device db d n t tw).2
  | Op.addMeter d mt c n =>
    match add_meter db d mt c n with
    | Except.ok (_, db') => db'
    | Except.error _ => db
  | Op.logPower mid v c cp => (log_power db mid v c cp).2
  | Op.trigger d et v n =>
    match trigger_event db d et v n with
    | Except.ok (_, db') => db'
    | Except.error _ => db

def initDB : DB := ⟨[], [], [], [], 0, 0⟩

def runOps (ops : List Op) : DB := ops.foldl step initDB

/-- Every persisted charge_pct lies in the unit interval scaled to 100. -/
def chargeInv (db : DB) : Prop :=
  (∀ m ∈ db.meters, 0 ≤ m.charge_pct ∧ m.charge_pct ≤ 100) ∧
  (∀ r ∈ db.readings, 0 ≤ r.charge_pct ∧ r.charge_pct ≤ 100)

def widS : String := "w-state"

def wid3 : String := "w3"

def wdb3 : DB :=
  ⟨[⟨wid3, wid3, 3, none⟩], [⟨0, wid3, MeterType.battery, 3, 2, 0, 50, none⟩], [], [], 1, 0⟩

def wid10 : String := "w10"

def wdb10 : DB := ⟨[⟨wid10, wid10, 3, none⟩], [], [], [], 0, 0⟩

def batteryStr : String := "battery"

def wid1 : String := "w1"

def wdb1 : DB :=
  ⟨[⟨wid1, wid1, 3, none⟩], [⟨0, wid1, MeterType.battery, 0, 0, 50, 50, none⟩], [], [], 1, 0⟩

def wid4 : String := "w4"

def wdb4 : DB :=
  ⟨[⟨wid4, wid4, 3, none⟩], [⟨0, wid4, MeterType.battery, 0, 0, 50, 50, none⟩], [], [], 1, 0⟩

def wid5 : String := "w5"

def wdb5 : DB :=
  ⟨[⟨wid5, wid5, 3, none⟩], [⟨0, wid5, MeterType.battery, 5, 2, 20, 100, none⟩], [], [], 1, 0⟩

def emptyId : String := ""

def othDev5 : String := "other5"

def cexDB5 : DB :=
  ⟨[⟨emptyId, emptyId, 3, none⟩, ⟨othDev5, othDev5, 3, none⟩],
   [⟨0, othDev5, MeterType.battery, 5, 2, 20, 100, none⟩], [], [], 1, 0⟩

def wid6 : String := "w6"

def cexDB6 : DB :=
  ⟨[⟨wid6, wid6, 3, none⟩], [⟨0, wid6, MeterType.battery, 0, 0, 50, 50, none⟩], [], [], 1, 0⟩

def wid7 : String := "w7"

def wdb7 : DB := ⟨[⟨wid7, wid7, 3, none⟩], [], [], [], 0, 0⟩

def othDev7 : String := "other7"

def cexDB7 : DB :=
  ⟨[⟨emptyId, emptyId, 3, none⟩, ⟨othDev7, othDev7, 3, none⟩],
   [⟨0, othDev7, MeterType.main, 2, 3, 0, 100, none⟩], [], [], 1, 0⟩

def wid8 : String := "w8"

def wdb8 : DB :=
  ⟨[⟨wid8, wid8, 3, none⟩], [], [], [⟨0, wid8, PowerEventType.discharge, 0, 2, none⟩], 1, 5⟩

def wid8c : String := "w8c"

def cexDB8 : DB :=
  ⟨[⟨wid8c, wid8c, 3, none⟩], [], [],
   (List.range 201).map (fun i => ⟨i, wid8c, PowerEventType.discharge, 0, i, none⟩),
   300, 0⟩

def wid9 : String := "w9"

def wdb9 : DB :=
  ⟨[⟨wid9, wid9, 3, none⟩], [⟨0, wid9, MeterType.battery, 0, 0, 50, 50, none⟩],
   [⟨1, 0, 0, 0, 0, 50, 4⟩], [⟨2, wid9, PowerEventType.restore, 0, 6, none⟩], 3, 10⟩

def r6 : PowerReading := ⟨1, 0, 0, 0, pyRound ((0:ℚ) * 0) 4, clamp ((some (3:ℚ)).getD 50), 0⟩

def db6mid : DB :=
  { cexDB6 with
    readings := cexDB6.readings ++ [r6],
    meters := cexDB6.meters.map (fun mm => if mm.id = 0 then
      { mm with voltage := 0, current_draw := 0,
                charge_pct := clamp ((some (3:ℚ)).getD 50) } else mm),
    nextId := cexDB6.nextId + 1, clock := cexDB6.clock + 1 }

theorem halfEven_intCast (z : ℤ) : halfEven (z : ℚ) = z := by
  unfold halfEven
  rw [Int.floor_intCast, sub_self, if_pos (by norm_num)]

theorem pyRound_intCast (z : ℤ) (n : ℕ) : pyRound (z : ℚ) n = z := by
  unfold pyRound
  have hc : ((z : ℚ)) * (10:ℚ)^n = ((z * 10^n : ℤ) : ℚ) := by push_cast; ring
  rw [hc, halfEven_intCast]
  have h10 : ((10:ℚ))^n ≠ 0 := by positivity
  push_cast
  field_simp

theorem pyRound_eq_int {x : ℚ} {z : ℤ} (n : ℕ) (h : x = (z : ℚ)) :
    pyRound x n = (z : ℚ) := by
  rw [h, pyRound_intCast]

theorem clamp_nonneg (x : ℚ) : 0 ≤ clamp x := le_max_left 0 _

theorem clamp_le_100 (x : ℚ) : clamp x ≤ 100 :=
  max_le (by norm_num) (min_le_left _ _)

theorem get_device_devices_eq {db db' : DB} (h : db'.devices = db.devices) (x : String) :
    get_device db' x = get_device db x := by
  unfold get_device; rw [h]

theorem get_device_ok_iff (db : DB) (id : String) :
    (∃ d, get_device db id = Except.ok d) ↔ ∃ d ∈ db.devices, d.id = id := by
  unfold get_device
  cases hf : db.devices.find? (fun d => decide (d.id = id)) with
  | none =>
    constructor
    · rintro ⟨d, h⟩; exact absurd h (by simp)
    · rintro ⟨d, hd, hid⟩
      have := List.find?_eq_none.mp hf d hd
      simp at this
      exact absurd hid this
  | some d =>
    have hp := List.find?_some hf
    have hmem := List.mem_of_find?_eq_some hf
    simp at hp
    exact ⟨fun _ => ⟨d, hmem, hp⟩, fun _ => ⟨d, rfl⟩⟩

theorem log_power_txn1_eq (db : DB) (mid : ℕ) (v c : ℚ) (cp : Option ℚ)
    (m : PowerMeter) (hm : get_meter db mid = Except.ok m) :
    log_power_txn1 db mid v c cp = Except.ok
      (⟨db.nextId, mid, v, c, pyRound (v * c) 4, clamp (cp.getD m.charge_pct), db.clock⟩, m,
       { db with
          readings := db.readings ++
            [⟨db.nextId, mid, v, c, pyRound (v * c) 4, clamp (cp.getD m.charge_pct), db.clock⟩],
          meters := db.meters.map (fun mm =>
            if mm.id = mid then
              { mm with voltage := v, current_draw := c,
                        charge_pct := clamp (cp.getD m.charge_pct) }
            else mm),
          nextId := db.nextId + 1,
          clock := db.clock + 1 }) := by
  unfold log_power_txn1; rw [hm]

theorem trigger_event_ok_state (db : DB) (did ename : String) (v : ℚ)
    (note : Option String) (e : PowerEvent) (db' : DB)
    (h : trigger_event db did ename v note = Except.ok (e, db')) :
    db'.events = db.events ++ [e] ∧ db'.meters = db.meters ∧
    db'.readings = db.readings ∧ db'.devices = db.devices := by
  unfold trigger_event at h
  cases hd : get_device db did with
  | error err => rw [hd] at h; exact absurd h (by simp)
  | ok d =>
    rw [hd] at h
    cases hp : PowerEventType.ofString ename with
    | none => rw [hp] at h; exact absurd h (by simp)
    | some t =>
      rw [hp] at h
      injection h with h1
      injection h1 with h2 h3
      subst h3
      subst h2
      exact ⟨rfl, rfl, rfl, rfl⟩

theorem log_power_snd_spec (db : DB) (mid : ℕ) (v c : ℚ) (cp : Option ℚ)
    (m : PowerMeter) (hm : get_meter db mid = Except.ok m) :
    (log_power db mid v c cp).2.readings = db.readings ++
      [⟨db.nextId, mid, v, c, pyRound (v * c) 4, clamp (cp.getD m.charge_pct), db.clock⟩] ∧
    (log_power db mid v c cp).2.meters = db.meters.map (fun mm =>
      if mm.id = mid then
        { mm with voltage := v, current_draw := c,
                  charge_pct := clamp (cp.getD m.charge_pct) }
      else mm) ∧
    ((log_power db mid v c cp).2.events = db.events ∨
      ∃ e, (log_power db mid v c cp).2.events = db.events ++ [e]) := by
  unfold log_power
  rw [log_power_txn1_eq db mid v c cp m hm]
  dsimp only
  by_cases hbat : m.type = MeterType.battery
  · rw [if_pos hbat]
    by_cases h5 : clamp (cp.getD m.charge_pct) ≤ CRITICAL_BATTERY_THRESHOLD
    · rw [if_pos h5]
      cases htr : trigger_event _ m.device_id low_battery_name _ none with
      | error err => exact ⟨rfl, rfl, Or.inl rfl⟩
      | ok p =>
        obtain ⟨he, hmet, hrd, _⟩ := trigger_event_ok_state _ _ _ _ _ p.1 p.2 (by rw [htr])
        exact ⟨hrd, hmet, Or.inr ⟨p.1, he⟩⟩
    · rw [if_neg h5]
      by_cases h20 : clamp (cp.getD m.charge_pct) ≤ LOW_BATTERY_THRESHOLD
      · rw [if_pos h20]
        cases htr : trigger_event _ m.device_id discharge_name _ none with
        | error err => exact ⟨rfl, rfl, Or.inl rfl⟩
        | ok p =>
          obtain ⟨he, hmet, hrd, _⟩ := trigger_event_ok_state _ _ _ _ _ p.1 p.2 (by rw [htr])
          exact ⟨hrd, hmet, Or.inr ⟨p.1, he⟩⟩
      · rw [if_neg h20]
        exact ⟨rfl, rfl, Or.inl rfl⟩
  · rw [if_neg hbat]
    exact ⟨rfl, rfl, Or.inl rfl⟩

theorem find?_append_right {α} (p : α → Bool) (l₁ l₂ : List α)
    (h : ∀ a ∈ l₁, p a = false) : (l₁ ++ l₂).find? p = l₂.find? p := by
  induction l₁ with
  | nil => rfl
  | cons a l ih =>
    simp only [List.cons_append, List.find?, h a (List.mem_cons_self a l)]
    exact ih (fun x hx => h x (List.mem_cons_of_mem a hx))

/-- C2: state classification follows the fixed priority order of the source:
solar first, then critical at 5, low at 20, charging at 95, else normal. -/
theorem C2_state_priority (m : PowerMeter) :
    (m.type = MeterType.solar → m.state = PowerState.charging) ∧
    (m.type ≠ MeterType.solar → m.charge_pct ≤ 5 → m.state = PowerState.critical) ∧
    (m.type ≠ MeterType.solar → 5 < m.charge_pct → m.charge_pct ≤ 20 →
      m.state = PowerState.low) ∧
    (m.type ≠ MeterType.solar → 20 < m.charge_pct → 95 ≤ m.charge_pct →
      m.state = PowerState.charging) ∧
    (m.type ≠ MeterType.solar → 20 < m.charge_pct → m.charge_pct < 95 →
      m.state = PowerState.normal) := by
  unfold PowerMeter.state CRITICAL_BATTERY_THRESHOLD LOW_BATTERY_THRESHOLD
  refine ⟨fun h => by rw [if_pos h], fun h h5 => ?_, fun h h5 h20 => ?_,
    fun h h20 h95 => ?_, fun h h20 h95 => ?_⟩
  · rw [if_neg h, if_pos h5]
  · rw [if_neg h, if_neg (by linarith), if_pos h20]
  · rw [if_neg h, if_neg (by linarith), if_neg (by linarith), if_pos h95]
  · rw [if_neg h, if_neg (by linarith), if_neg (by linarith), if_neg (by linarith)]

/-- Witness for C2 at the concrete charges of the claim: 80, 15, 4, 97, and solar. -/
theorem C2_state_priority_witness :
    (PowerMeter.state ⟨0, widS, MeterType.battery, 0, 0, 0, 80, none⟩ = PowerState.normal) ∧
    (PowerMeter.state ⟨1, widS, MeterType.battery, 0, 0, 0, 15, none⟩ = PowerState.low) ∧
    (PowerMeter.state ⟨2, widS, MeterType.battery, 0, 0, 0, 4, none⟩ = PowerState.critical) ∧
    (PowerMeter.state ⟨3, widS, MeterType.battery, 0, 0, 0, 97, none⟩ = PowerState.charging) ∧
    (PowerMeter.state ⟨4, widS, MeterType.solar, 0, 0, 0, 1, none⟩ = PowerState.charging) :=
  ⟨(C2_state_priority _).2.2.2.2 (by decide) (by norm_num) (by norm_num),
   (C2_state_priority _).2.2.1 (by decide) (by norm_num) (by norm_num),
   (C2_state_priority _).2.1 (by decide) (by norm_num),
   (C2_state_priority _).2.2.2.1 (by decide) (by norm_num) (by norm_num),
   (C2_state_priority _).1 rfl⟩

/-- C3: the derived wattage attribute and the wattage stored in the Reading
written by log_power both equal round(voltage * current, 4). -/
theorem C3_wattage_round (db : DB) (mid : ℕ) (v c : ℚ) (cp : Option ℚ)
    (m : PowerMeter) (hm : get_meter db mid = Except.ok m) :
    m.wattage = pyRound (m.voltage * m.current_draw) 4 ∧
    ∃ r, (log_power db mid v c cp).2.readings = db.readings ++ [r] ∧
      r.voltage = v ∧ r.current_draw = c ∧ r.wattage = pyRound (v * c) 4 := by
  refine ⟨rfl, ?_⟩
  obtain ⟨hrd, _, _⟩ := log_power_snd_spec db mid v c cp m hm
  exact ⟨_, hrd, rfl, rfl, rfl⟩

/-- Witness for C3 on a concrete battery meter with voltage 3 and current 2. -/
theorem C3_wattage_round_witness :
    (⟨0, wid3, MeterType.battery, 3, 2, 0, 50, none⟩ : PowerMeter).wattage =
      pyRound ((3:ℚ) * 2) 4 ∧
    ∃ r, (log_power wdb3 0 3 2 (some 50)).2.readings = wdb3.readings ++ [r] ∧
      r.voltage = 3 ∧ r.current_draw = 2 ∧ r.wattage = pyRound ((3:ℚ) * 2) 4 :=
  C3_wattage_round wdb3 0 3 2 (some 50) ⟨0, wid3, MeterType.battery, 3, 2, 0, 50, none⟩ rfl

/-- C10: a freshly added meter has voltage 0, current 0, charge 100, hence
wattage 0 and state charging. -/
theorem C10_add_meter_defaults (db : DB) (did mt : String) (cap : ℚ)
    (nm : Option String) (m : PowerMeter) (db' : DB)
    (hfresh : ∀ mm ∈ db.meters, mm.id ≠ db.nextId)
    (h : add_meter db did mt cap nm = Except.ok (m, db')) :
    m.voltage = 0 ∧ m.current_draw = 0 ∧ m.charge_pct = 100 ∧
    m.wattage = 0 ∧ m.state = PowerState.charging := by
  unfold add_meter at h
  cases hd : get_device db did with
  | error e => rw [hd] at h; exact absurd h (by simp)
  | ok d =>
    rw [hd] at h
    cases hp : MeterType.ofString mt with
    | none => rw [hp] at h; exact absurd h (by simp)
    | some t =>
      rw [hp] at h
      have hget : get_meter
          { db with meters := db.meters ++ [⟨db.nextId, did, t, 0, 0, cap, 100, nm⟩],
                    nextId := db.nextId + 1 } db.nextId =
          Except.ok ⟨db.nextId, did, t, 0, 0, cap, 100, nm⟩ := by
        unfold get_meter
        rw [find?_append_right _ _ _ (fun a ha => by simp [hfresh a ha])]
        simp [List.find?]
      simp only [hget, Except.ok.injEq, Prod.mk.injEq] at h
      obtain ⟨h2, h3⟩ := h
      subst h2
      refine ⟨rfl, rfl, rfl, ?_, ?_⟩
      · show pyRound ((0:ℚ) * 0) 4 = 0
        rw [pyRound_eq_int 4 (z := 0) (by norm_num)]
        norm_num
      · unfold PowerMeter.state CRITICAL_BATTERY_THRESHOLD LOW_BATTERY_THRESHOLD
        by_cases ht : t = MeterType.solar
        · simp [ht]
        · rw [if_neg ht, if_neg (by norm_num), if_neg (by norm_num), if_pos (by norm_num)]

/-- Witness for C10: adding a battery meter to a fresh store. -/
theorem C10_add_meter_defaults_witness :
    (∀ mm ∈ wdb10.meters, mm.id ≠ wdb10.nextId) ∧
    ((⟨0, wid10, MeterType.battery, 0, 0, 50, 100, none⟩ : PowerMeter).voltage = 0 ∧
     (⟨0, wid10, MeterType.battery, 0, 0, 50, 100, none⟩ : PowerMeter).current_draw = 0 ∧
     (⟨0, wid10, MeterType.battery, 0, 0, 50, 100, none⟩ : PowerMeter).charge_pct = 100 ∧
     (⟨0, wid10, MeterType.battery, 0, 0, 50, 100, none⟩ : PowerMeter).wattage = 0 ∧
     (⟨0, wid10, MeterType.battery, 0, 0, 50, 100, none⟩ : PowerMeter).state =
       PowerState.charging) :=
  ⟨by simp [wdb10],
   C10_add_meter_defaults wdb10 wid10 batteryStr 50 none
     ⟨0, wid10, MeterType.battery, 0, 0, 50, 100, none⟩
     { wdb10 with meters := [⟨0, wid10, MeterType.battery, 0, 0, 50, 100, none⟩],
                  nextId := 1 }
     (by simp [wdb10]) rfl⟩

theorem trigger_event_eq (db : DB) (did ename : String) (t : PowerEventType)
    (hp : PowerEventType.ofString ename = some t) (v : ℚ) (note : Option String)
    (d : DeviceRecord) (hd : get_device db did = Except.ok d) :
    trigger_event db did ename v note = Except.ok
      (⟨db.nextId, did, t, v, db.clock, note⟩,
       { db with events := db.events ++ [⟨db.nextId, did, t, v, db.clock, note⟩],
                 nextId := db.nextId + 1, clock := db.clock + 1 }) := by
  unfold trigger_event
  rw [hd, hp]

/-- C1: on a battery meter, log_power appends exactly one low_battery event
when the clamped charge is at most 5, exactly one discharge event when it is
in (5, 20], and none above 20; a non-battery meter never gets an auto event;
the Reading row is appended in every case. -/
theorem C1_auto_events (db : DB) (mid : ℕ) (v c : ℚ) (cp : Option ℚ)
    (m : PowerMeter) (d : DeviceRecord)
    (hm : get_meter db mid = Except.ok m)
    (hd : get_device db m.device_id = Except.ok d) :
    (m.type = MeterType.battery → clamp (cp.getD m.charge_pct) ≤ 5 →
      ∃ e, (log_power db mid v c cp).2.events = db.events ++ [e] ∧
        e.type = PowerEventType.low_battery ∧
        e.value = clamp (cp.getD m.charge_pct) ∧ e.device_id = m.device_id) ∧
    (m.type = MeterType.battery → 5 < clamp (cp.getD m.charge_pct) →
      clamp (cp.getD m.charge_pct) ≤ 20 →
      ∃ e, (log_power db mid v c cp).2.events = db.events ++ [e] ∧
        e.type = PowerEventType.discharge ∧
        e.value = clamp (cp.getD m.charge_pct) ∧ e.device_id = m.device_id) ∧
    (m.type = MeterType.battery → 20 < clamp (cp.getD m.charge_pct) →
      (log_power db mid v c cp).2.events = db.events) ∧
    (m.type ≠ MeterType.battery → (log_power db mid v c cp).2.events = db.events) ∧
    (∃ r, (log_power db mid v c cp).2.readings = db.readings ++ [r]) := by
  have hrd := (log_power_snd_spec db mid v c cp m hm).1
  refine ⟨?_, ?_, ?_, ?_, ⟨_, hrd⟩⟩
  · intro hbat hle
    unfold log_power
    rw [log_power_txn1_eq db mid v c cp m hm]
    dsimp only
    rw [if_pos hbat, if_pos (show clamp (cp.getD m.charge_pct) ≤
      CRITICAL_BATTERY_THRESHOLD from hle)]
    rw [trigger_event_eq _ m.device_id low_battery_name PowerEventType.low_battery rfl
      (clamp (cp.getD m.charge_pct)) none d
      (by rw [get_device_devices_eq rfl]; exact hd)]
    exact ⟨_, rfl, rfl, rfl, rfl⟩
  · intro hbat hgt hle
    unfold log_power
    rw [log_power_txn1_eq db mid v c cp m hm]
    dsimp only
    rw [if_pos hbat,
      if_neg (show ¬ clamp (cp.getD m.charge_pct) ≤ CRITICAL_BATTERY_THRESHOLD by
        unfold CRITICAL_BATTERY_THRESHOLD; linarith),
      if_pos (show clamp (cp.getD m.charge_pct) ≤ LOW_BATTERY_THRESHOLD from hle)]
    rw [trigger_event_eq _ m.device_id discharge_name PowerEventType.discharge rfl
      (clamp (cp.getD m.charge_pct)) none d
      (by rw [get_device_devices_eq rfl]; exact hd)]
    exact ⟨_, rfl, rfl, rfl, rfl⟩
  · intro hbat hgt
    unfold log_power
    rw [log_power_txn1_eq db mid v c cp m hm]
    dsimp only
    rw [if_pos hbat,
      if_neg (show ¬ clamp (cp.getD m.charge_pct) ≤ CRITICAL_BATTERY_THRESHOLD by
        unfold CRITICAL_BATTERY_THRESHOLD; linarith),
      if_neg (show ¬ clamp (cp.getD m.charge_pct) ≤ LOW_BATTERY_THRESHOLD by
        unfold LOW_BATTERY_THRESHOLD; linarith)]
  · intro hbat
    unfold log_power
    rw [log_power_txn1_eq db mid v c cp m hm]
    dsimp only
    rw [if_neg hbat]

/-- Witness for C1: logging charge 3 on a battery meter emits one low_battery event. -/
theorem C1_auto_events_witness :
    ∃ e, (log_power wdb1 0 0 0 (some 3)).2.events = wdb1.events ++ [e] ∧
      e.type = PowerEventType.low_battery ∧
      e.value = clamp ((some (3:ℚ)).getD 50) ∧ e.device_id = wid1 :=
  (C1_auto_events wdb1 0 0 0 (some 3) ⟨0, wid1, MeterType.battery, 0, 0, 50, 50, none⟩
    ⟨wid1, wid1, 3, none⟩ rfl rfl).1 rfl (by decide)

theorem register_device_snd (db : DB) (a b : String) (c : ℚ) (e : Option ℚ) :
    (register_device db a b c e).2.meters = db.meters ∧
    (register_device db a b c e).2.readings = db.readings ∧
    (register_device db a b c e).2.events = db.events := by
  unfold register_device
  dsimp only
  constructor
  · split <;> rfl
  constructor
  · split <;> rfl
  · split <;> rfl

theorem add_meter_ok_state (db : DB) (a mt : String) (cap : ℚ) (nm : Option String)
    (m : PowerMeter) (db' : DB) (h : add_meter db a mt cap nm = Except.ok (m, db')) :
    ∃ t, db'.meters = db.meters ++ [⟨db.nextId, a, t, 0, 0, cap, 100, nm⟩] ∧
      db'.readings = db.readings ∧ db'.events = db.events := by
  unfold add_meter at h
  cases hd : get_device db a with
  | error e => rw [hd] at h; exact absurd h (by simp)
  | ok d =>
    cases hp : MeterType.ofString mt with
    | none => simp [hd, hp] at h
    | some t =>
      simp only [hd, hp] at h
      split at h
      · injection h with h1
        injection h1 with h2 h3
        subst h3
        exact ⟨t, rfl, rfl, rfl⟩
      · exact absurd h (by simp)

theorem log_power_chargeInv (db : DB) (mid : ℕ) (v c : ℚ) (cp : Option ℚ)
    (h : chargeInv db) : chargeInv (log_power db mid v c cp).2 := by
  obtain ⟨hm, hr⟩ := h
  cases hg : get_meter db mid with
  | error e =>
    unfold log_power log_power_txn1
    rw [hg]
    exact ⟨hm, hr⟩
  | ok m =>
    obtain ⟨hrd, hmet, _⟩ := log_power_snd_spec db mid v c cp m hg
    constructor
    · intro mm hmm
      rw [hmet] at hmm
      obtain ⟨x, hx, hfx⟩ := List.mem_map.mp hmm
      by_cases hid : x.id = mid
      · rw [if_pos hid] at hfx
        rw [← hfx]
        exact ⟨clamp_nonneg _, clamp_le_100 _⟩
      · rw [if_neg hid] at hfx
        rw [← hfx]
        exact hm x hx
    · intro r hrr
      rw [hrd] at hrr
      rcases List.mem_append.mp hrr with h1 | h2
      · exact hr r h1
      · rw [List.mem_singleton.mp h2]
        exact ⟨clamp_nonneg _, clamp_le_100 _⟩

theorem chargeInv_step (db : DB) (op : Op) (h : chargeInv db) : chargeInv (step db op) := by
  cases op with
  | register a b t tw =>
    obtain ⟨h1, h2, _⟩ := register_device_snd db a b t tw
    exact ⟨by rw [show (step db (Op.register a b t tw)).meters =
        (register_device db a b t tw).2.meters from rfl, h1]; exact h.1,
      by rw [show (step db (Op.register a b t tw)).readings =
        (register_device db a b t tw).2.readings from rfl, h2]; exact h.2⟩
  | addMeter a mt cap nm =>
    show chargeInv (match add_meter db a mt cap nm with
      | Except.ok (_, db') => db' | Except.error _ => db)
    cases hadd : add_meter db a mt cap nm with
    | error e => exact h
    | ok p =>
      obtain ⟨pm, pdb⟩ := p
      obtain ⟨t, hmet, hrd, _⟩ := add_meter_ok_state db a mt cap nm pm pdb hadd
      constructor
      · intro mm hmm
        rw [hmet] at hmm
        rcases List.mem_append.mp hmm with h1 | h2
        · exact h.1 mm h1
        · rw [List.mem_singleton.mp h2]
          exact ⟨by norm_num, by norm_num⟩
      · intro r hrr
        rw [hrd] at hrr
        exact h.2 r hrr
  | logPower mid v c cp => exact log_power_chargeInv db mid v c cp h
  | trigger a et v nt =>
    show chargeInv (match trigger_event db a et v nt with
      | Except.ok (_, db') => db' | Except.error _ => db)
    cases htr : trigger_event db a et v nt with
    | error e => exact h
    | ok p =>
      obtain ⟨pe, pdb⟩ := p
      obtain ⟨_, hmet, hrd, _⟩ := trigger_event_ok_state db a et v nt pe pdb htr
      exact ⟨by rw [hmet]; exact h.1, by rw [hrd]; exact h.2⟩

theorem chargeInv_foldl : ∀ (ops : List Op) (db : DB),
    chargeInv db → chargeInv (ops.foldl step db)
  | [], _, h => h
  | op :: rest, db, h => chargeInv_foldl rest (step db op) (chargeInv_step db op h)

/-- C4: log_power stores the clamped charge max(0, min(100, pct)) in the new
Reading and on the Meter, and after any sequence of operations every stored
charge_pct lies in the interval from 0 to 100. -/
theorem C4_charge_clamped (db : DB) (mid : ℕ) (v c pct : ℚ) (m : PowerMeter)
    (hm : get_meter db mid = Except.ok m) :
    ((∃ r, (log_power db mid v c (some pct)).2.readings = db.readings ++ [r] ∧
        r.charge_pct = max 0 (min 100 pct)) ∧
     (∀ mm ∈ (log_power db mid v c (some pct)).2.meters, mm.id = mid →
        mm.charge_pct = max 0 (min 100 pct))) ∧
    ∀ ops : List Op,
      (∀ mm ∈ (runOps ops).meters, 0 ≤ mm.charge_pct ∧ mm.charge_pct ≤ 100) ∧
      (∀ r ∈ (runOps ops).readings, 0 ≤ r.charge_pct ∧ r.charge_pct ≤ 100) := by
  refine ⟨⟨?_, ?_⟩, ?_⟩
  · obtain ⟨hrd, _, _⟩ := log_power_snd_spec db mid v c (some pct) m hm
    exact ⟨_, hrd, rfl⟩
  · intro mm hmm hid
    obtain ⟨_, hmet, _⟩ := log_power_snd_spec db mid v c (some pct) m hm
    rw [hmet] at hmm
    obtain ⟨x, hx, hfx⟩ := List.mem_map.mp hmm
    by_cases hxid : x.id = mid
    · rw [if_pos hxid] at hfx
      rw [← hfx]
      rfl
    · rw [if_neg hxid] at hfx
      rw [← hfx] at hid
      exact absurd hid hxid
  · intro ops
    exact chargeInv_foldl ops initDB ⟨by simp [initDB], by simp [initDB]⟩

/-- Witness for C4: logging charge 150 stores the clamped value 100. -/
theorem C4_charge_clamped_witness :
    ((∃ r, (log_power wdb4 0 1 1 (some 150)).2.readings = wdb4.readings ++ [r] ∧
        r.charge_pct = max 0 (min 100 150)) ∧
     (∀ mm ∈ (log_power wdb4 0 1 1 (some 150)).2.meters, mm.id = 0 →
        mm.charge_pct = max 0 (min 100 150))) ∧
    ∀ ops : List Op,
      (∀ mm ∈ (runOps ops).meters, 0 ≤ mm.charge_pct ∧ mm.charge_pct ≤ 100) ∧
      (∀ r ∈ (runOps ops).readings, 0 ≤ r.charge_pct ∧ r.charge_pct ≤ 100) :=
  C4_charge_clamped wdb4 0 1 1 150 ⟨0, wid4, MeterType.battery, 0, 0, 50, 50, none⟩ rfl

/-- C5 amended: for every existing device with a non-empty id, estimate_runtime
returns none when the device has no battery meter with positive current draw,
none when the first such meter has non-positive wattage, and otherwise the
rounded remaining-hours estimate of that first meter. -/
theorem C5_estimate_runtime_amended (db : DB) (device_id : String)
    (hne : device_id ≠ "") (_hdev : ∃ d ∈ db.devices, d.id = device_id) :
    ((db.meters.filter (fun mm => decide (mm.device_id = device_id))).filter
        (fun mm => decide (mm.type = MeterType.battery) &&
          decide (0 < mm.current_draw)) = [] →
      estimate_runtime db device_id = none) ∧
    ∀ bm rest,
      (db.meters.filter (fun mm => decide (mm.device_id = device_id))).filter
        (fun mm => decide (mm.type = MeterType.battery) &&
          decide (0 < mm.current_draw)) = bm :: rest →
      (bm.wattage ≤ 0 → estimate_runtime db device_id = none) ∧
      (0 < bm.wattage → estimate_runtime db device_id =
        some (pyRound (bm.capacity_wh * (bm.charge_pct / 100) / bm.wattage) 2)) := by
  unfold estimate_runtime list_meters
  dsimp only
  rw [if_neg hne]
  constructor
  · intro hnil
    rw [hnil]
  · intro bm rest hcons
    rw [hcons]
    dsimp only
    constructor
    · intro hw
      rw [if_pos hw]
    · intro hw
      rw [if_neg (not_le.mpr hw)]

/-- Witness for the amended C5 on a device with one battery meter drawing
2 A at 5 V from a 20 Wh battery at full charge. -/
theorem C5_estimate_runtime_amended_witness :
    estimate_runtime wdb5 wid5 = some (pyRound ((20:ℚ) * (100 / 100) /
      (⟨0, wid5, MeterType.battery, 5, 2, 20, 100, none⟩ : PowerMeter).wattage) 2) :=
  ((C5_estimate_runtime_amended wdb5 wid5 (by decide)
      ⟨⟨wid5, wid5, 3, none⟩, by simp [wdb5], rfl⟩).2
    ⟨0, wid5, MeterType.battery, 5, 2, 20, 100, none⟩ [] rfl).2 (by
      show (0:ℚ) < pyRound ((5:ℚ) * 2) 4
      rw [pyRound_eq_int 4 (z := 10) (by norm_num)]
      norm_num)

/-- Counterexample to C5 as stated: the device with the empty-string id exists
and has no battery meter at all, yet estimate_runtime returns an estimate,
because the truthiness test in list_meters drops the device filter for the
empty id and another device owns a qualifying battery meter. -/
theorem C5_counterexample :
    (∃ d ∈ cexDB5.devices, d.id = emptyId) ∧
    (∀ mm ∈ cexDB5.meters, ¬(mm.device_id = emptyId ∧ mm.type = MeterType.battery ∧
        0 < mm.current_draw)) ∧
    estimate_runtime cexDB5 emptyId = some 2 := by
  refine ⟨⟨⟨emptyId, emptyId, 3, none⟩, by simp [cexDB5], rfl⟩, by decide, ?_⟩
  have hw : (⟨0, othDev5, MeterType.battery, 5, 2, 20, 100, none⟩ : PowerMeter).wattage
      = 10 := by
    show pyRound ((5:ℚ) * 2) 4 = 10
    rw [pyRound_eq_int 4 (z := 10) (by norm_num)]
    norm_num
  unfold estimate_runtime list_meters
  dsimp only
  rw [if_pos (show emptyId = "" from rfl)]
  rw [show cexDB5.meters.filter (fun m => decide (m.type = MeterType.battery) &&
      decide (0 < m.current_draw)) =
      [⟨0, othDev5, MeterType.battery, 5, 2, 20, 100, none⟩] from rfl]
  dsimp only
  rw [hw, if_neg (by norm_num)]
  rw [pyRound_eq_int 2 (z := 2) (by norm_num)]
  norm_num

theorem log_power_txn1_inv (db : DB) (mid : ℕ) (v c : ℚ) (cp : Option ℚ)
    (r : PowerReading) (m : PowerMeter) (db1 : DB)
    (h : log_power_txn1 db mid v c cp = Except.ok (r, m, db1)) :
    get_meter db mid = Except.ok m ∧
    r = ⟨db.nextId, mid, v, c, pyRound (v * c) 4, clamp (cp.getD m.charge_pct), db.clock⟩ ∧
    db1 = { db with
      readings := db.readings ++
        [⟨db.nextId, mid, v, c, pyRound (v * c) 4, clamp (cp.getD m.charge_pct), db.clock⟩],
      meters := db.meters.map (fun mm => if mm.id = mid then
        { mm with voltage := v, current_draw := c,
                  charge_pct := clamp (cp.getD m.charge_pct) } else mm),
      nextId := db.nextId + 1, clock := db.clock + 1 } := by
  cases hm : get_meter db mid with
  | error e =>
    unfold log_power_txn1 at h
    rw [hm] at h
    exact absurd h (by simp)
  | ok m0 =>
    rw [log_power_txn1_eq db mid v c cp m0 hm] at h
    simp only [Except.ok.injEq, Prod.mk.injEq] at h
    obtain ⟨h1, h2, h3⟩ := h
    subst h1
    subst h2
    subst h3
    exact ⟨rfl, rfl, rfl⟩

/-- C6 amended: within log_power the Reading insert and the Meter live-field
update commit together in one transaction, whose committed state is observable;
any auto-emitted Event is committed by a separate later transaction that only
appends at most one event, so the final state extends the intermediate one
only in the events table. -/
theorem C6_two_phase_commit (db : DB) (mid : ℕ) (v c : ℚ) (cp : Option ℚ)
    (r : PowerReading) (m : PowerMeter) (db1 : DB)
    (h : log_power_txn1 db mid v c cp = Except.ok (r, m, db1)) :
    db1.readings = db.readings ++ [r] ∧
    db1.meters = db.meters.map (fun mm => if mm.id = mid then
      { mm with voltage := v, current_draw := c, charge_pct := r.charge_pct } else mm) ∧
    db1.events = db.events ∧
    db1 ∈ log_power_observable db mid v c cp ∧
    (log_power db mid v c cp).2.readings = db1.readings ∧
    (log_power db mid v c cp).2.meters = db1.meters ∧
    ((log_power db mid v c cp).2.events = db1.events ∨
      ∃ e, (log_power db mid v c cp).2.events = db1.events ++ [e]) := by
  obtain ⟨hm, hr, hdb1⟩ := log_power_txn1_inv db mid v c cp r m db1 h
  obtain ⟨hrd, hmet, hev⟩ := log_power_snd_spec db mid v c cp m hm
  subst hr
  subst hdb1
  refine ⟨rfl, rfl, rfl, ?_, ?_, ?_, ?_⟩
  · unfold log_power_observable
    rw [h]
    exact List.mem_cons_of_mem _ (List.mem_cons_self _ _)
  · rw [hrd]
  · rw [hmet]
  · exact hev

/-- Counterexample to C6 as stated: logging charge 3 on a battery meter
exposes an observable committed state that already holds the new Reading but
not the auto-emitted low_battery Event that the same call then commits, so
the call is not atomic as a whole. -/
theorem C6_counterexample :
    ∃ s ∈ log_power_observable cexDB6 0 0 0 (some 3),
      s.readings ≠ cexDB6.readings ∧ s.events = cexDB6.events ∧
      (log_power cexDB6 0 0 0 (some 3)).2.events ≠ s.events := by
  have hm : get_meter cexDB6 0 =
      Except.ok ⟨0, wid6, MeterType.battery, 0, 0, 50, 50, none⟩ := rfl
  have htxn := log_power_txn1_eq cexDB6 0 0 0 (some 3)
    ⟨0, wid6, MeterType.battery, 0, 0, 50, 50, none⟩ hm
  refine ⟨{ cexDB6 with
      readings := cexDB6.readings ++
        [⟨cexDB6.nextId, 0, 0, 0, pyRound ((0:ℚ) * 0) 4,
          clamp ((some (3:ℚ)).getD 50), cexDB6.clock⟩],
      meters := cexDB6.meters.map (fun mm => if mm.id = 0 then
        { mm with voltage := 0, current_draw := 0,
                  charge_pct := clamp ((some (3:ℚ)).getD 50) } else mm),
      nextId := cexDB6.nextId + 1, clock := cexDB6.clock + 1 }, ?_, ?_, rfl, ?_⟩
  · unfold log_power_observable
    rw [htxn]
    exact List.mem_cons_of_mem _ (List.mem_cons_self _ _)
  · decide
  · decide

theorem power_budget_check_mem (db : DB) (ids : List String) (id : String) (hid : id ∈ ids) :
    power_budget_check db ids id = some (budget_check_one db id) := by
  suffices h : ∀ (l : List String) (f : String → Option BudgetResult) (k : String),
      (l.foldl (fun results dev_id k => if k = dev_id then
        some (budget_check_one db dev_id) else results k) f) k =
      if k ∈ l then some (budget_check_one db k) else f k by
    rw [power_budget_check, h, if_pos hid]
  intro l
  induction l with
  | nil => intro f k; simp
  | cons a rest ih =>
    intro f k
    rw [List.foldl_cons, ih]
    by_cases hmem : k ∈ rest
    · rw [if_pos hmem, if_pos (List.mem_cons_of_mem a hmem)]
    · rw [if_neg hmem]
      by_cases ha : k = a
      · subst ha
        rw [if_pos (List.mem_cons_self k rest), if_pos rfl]
      · rw [if_neg ha, if_neg (show ¬ k ∈ a :: rest by simp [List.mem_cons, ha, hmem])]

theorem get_device_error_of_not_exists (db : DB) (id : String)
    (h : ¬ ∃ d ∈ db.devices, d.id = id) :
    get_device db id = Except.error (Err.notFound id) := by
  unfold get_device
  cases hf : db.devices.find? (fun d => decide (d.id = id)) with
  | none => rfl
  | some d =>
    exact absurd ⟨d, List.mem_of_find?_eq_some hf, by simpa using List.find?_some hf⟩ h

theorem budget_check_one_failure (db : DB) (id : String) (e : Err)
    (hd : get_device db id = Except.error e) :
    budget_check_one db id = BudgetResult.failure (errMsg e) := by
  unfold budget_check_one
  rw [hd]

theorem budget_check_one_entry (db : DB) (id : String) (d : DeviceRecord)
    (hd : get_device db id = Except.ok d) (hne : id ≠ "") :
    budget_check_one db id = BudgetResult.entry
      (pyRound ((db.meters.filter (fun mm => decide (mm.device_id = id))).map
        PowerMeter.wattage).sum 4)
      ((db.meters.filter (fun mm => decide (mm.device_id = id))).filter
        (fun mm => decide (mm.type = MeterType.battery))).length
      ((db.meters.filter (fun mm => decide (mm.device_id = id))).filter
        (fun mm => decide (mm.type = MeterType.solar))).length
      (if ((db.meters.filter (fun mm => decide (mm.device_id = id))).filter
          (fun mm => decide (mm.type = MeterType.battery))).isEmpty then none
       else some (pyRound ((((db.meters.filter (fun mm => decide (mm.device_id = id))).filter
          (fun mm => decide (mm.type = MeterType.battery))).map PowerMeter.charge_pct).sum /
          ((((db.meters.filter (fun mm => decide (mm.device_id = id))).filter
          (fun mm => decide (mm.type = MeterType.battery))).length : ℚ))) 2))
      (estimate_runtime db id)
      ((db.meters.filter (fun mm => decide (mm.device_id = id))).map PowerMeter.state) := by
  unfold budget_check_one list_meters
  rw [hd]
  dsimp only
  rw [if_neg hne]

/-- C7 amended: power_budget_check yields an entry for every requested id; for
an absent device the entry is an error descriptor; for an existing device with
a non-empty id the entry aggregates the meters of that device (total wattage
rounded to 4 decimals, battery and solar counts, average battery charge or
none, runtime estimate, per-meter states). -/
theorem C7_budget_check (db : DB) (ids : List String) (id : String) (hid : id ∈ ids) :
    ∃ entry, power_budget_check db ids id = some entry ∧
      ((¬ ∃ d ∈ db.devices, d.id = id) → ∃ msg, entry = BudgetResult.failure msg) ∧
      ((∃ d ∈ db.devices, d.id = id) → id ≠ "" →
        entry = BudgetResult.entry
          (pyRound ((db.meters.filter (fun mm => decide (mm.device_id = id))).map
            PowerMeter.wattage).sum 4)
          ((db.meters.filter (fun mm => decide (mm.device_id = id))).filter
            (fun mm => decide (mm.type = MeterType.battery))).length
          ((db.meters.filter (fun mm => decide (mm.device_id = id))).filter
            (fun mm => decide (mm.type = MeterType.solar))).length
          (if ((db.meters.filter (fun mm => decide (mm.device_id = id))).filter
              (fun mm => decide (mm.type = MeterType.battery))).isEmpty then none
           else some (pyRound ((((db.meters.filter (fun mm =>
              decide (mm.device_id = id))).filter
              (fun mm => decide (mm.type = MeterType.battery))).map
              PowerMeter.charge_pct).sum /
              ((((db.meters.filter (fun mm => decide (mm.device_id = id))).filter
              (fun mm => decide (mm.type = MeterType.battery))).length : ℚ))) 2))
          (estimate_runtime db id)
          ((db.meters.filter (fun mm => decide (mm.device_id = id))).map
            PowerMeter.state)) := by
  refine ⟨budget_check_one db id, power_budget_check_mem db ids id hid, ?_, ?_⟩
  · intro hne
    rw [budget_check_one_failure db id _ (get_device_error_of_not_exists db id hne)]
    exact ⟨_, rfl⟩
  · intro hex hne
    obtain ⟨d, hd⟩ := (get_device_ok_iff db id).mpr hex
    exact budget_check_one_entry db id d hd hne

/-- Witness for the amended C7 on a one-device batch. -/
theorem C7_budget_check_witness :
    ∃ entry, power_budget_check wdb7 [wid7] wid7 = some entry ∧
      ((¬ ∃ d ∈ wdb7.devices, d.id = wid7) → ∃ msg, entry = BudgetResult.failure msg) ∧
      ((∃ d ∈ wdb7.devices, d.id = wid7) → wid7 ≠ "" →
        entry = BudgetResult.entry
          (pyRound ((wdb7.meters.filter (fun mm => decide (mm.device_id = wid7))).map
            PowerMeter.wattage).sum 4)
          ((wdb7.meters.filter (fun mm => decide (mm.device_id = wid7))).filter
            (fun mm => decide (mm.type = MeterType.battery))).length
          ((wdb7.meters.filter (fun mm => decide (mm.device_id = wid7))).filter
            (fun mm => decide (mm.type = MeterType.solar))).length
          (if ((wdb7.meters.filter (fun mm => decide (mm.device_id = wid7))).filter
              (fun mm => decide (mm.type = MeterType.battery))).isEmpty then none
           else some (pyRound ((((wdb7.meters.filter (fun mm =>
              decide (mm.device_id = wid7))).filter
              (fun mm => decide (mm.type = MeterType.battery))).map
              PowerMeter.charge_pct).sum /
              ((((wdb7.meters.filter (fun mm => decide (mm.device_id = wid7))).filter
              (fun mm => decide (mm.type = MeterType.battery))).length : ℚ))) 2))
          (estimate_runtime wdb7 wid7)
          ((wdb7.meters.filter (fun mm => decide (mm.device_id = wid7))).map
            PowerMeter.state)) :=
  C7_budget_check wdb7 [wid7] wid7 (List.mem_singleton.mpr rfl)

/-- Counterexample to C7 as stated: the empty-id device exists and owns no
meters, so the total wattage summed over its meters is 0, yet its result
entry reports total 6 (and one state), because the unfiltered listing for the
empty id pulls in a meter of another device. -/
theorem C7_counterexample :
    (∃ d ∈ cexDB7.devices, d.id = emptyId) ∧
    cexDB7.meters.filter (fun mm => decide (mm.device_id = emptyId)) = [] ∧
    power_budget_check cexDB7 [emptyId] emptyId =
      some (BudgetResult.entry 6 0 0 none none [PowerState.charging]) ∧
    pyRound ((cexDB7.meters.filter (fun mm => decide (mm.device_id = emptyId))).map
      PowerMeter.wattage).sum 4 = 0 ∧ (6 : ℚ) ≠ 0 := by
  have hw : (⟨0, othDev7, MeterType.main, 2, 3, 0, 100, none⟩ : PowerMeter).wattage = 6 := by
    show pyRound ((2:ℚ) * 3) 4 = 6
    rw [pyRound_eq_int 4 (z := 6) (by norm_num)]
    norm_num
  refine ⟨⟨⟨emptyId, emptyId, 3, none⟩, by simp [cexDB7], rfl⟩, by decide, ?_, ?_,
    by norm_num⟩
  · rw [power_budget_check_mem cexDB7 [emptyId] emptyId (List.mem_singleton.mpr rfl)]
    have hb : budget_check_one cexDB7 emptyId = BudgetResult.entry
        (pyRound ((cexDB7.meters.map PowerMeter.wattage).sum) 4) 0 0 none none
        [PowerState.charging] := rfl
    rw [hb]
    have hsum : (cexDB7.meters.map PowerMeter.wattage).sum = 6 := by
      show ([(⟨0, othDev7, MeterType.main, 2, 3, 0, 100, none⟩ : PowerMeter)].map
        PowerMeter.wattage).sum = 6
      rw [List.map_singleton, List.sum_singleton, hw]
    rw [hsum]
    rw [pyRound_eq_int 4 (z := 6) (by norm_num)]
    norm_num
  · show pyRound (0 : ℚ) 4 = 0
    rw [pyRound_eq_int 4 (z := 0) (by norm_num)]
    norm_num

/-- C8 amended: export_report fails with a NotFound error for an absent
device; for a present device the event_count field of the report is the number of
events fetched under the 200-row limit, i.e. min(200, total events of the
device), and the report embeds only the first 20 of those most recent
events, in descending timestamp order. -/
theorem C8_export_report (db : DB) (did : String) (days : ℕ) :
    ((¬ ∃ d ∈ db.devices, d.id = did) →
      ∃ err, export_report db did days = Except.error err) ∧
    (∀ rep, export_report db did days = Except.ok rep →
      rep.event_count =
        min 200 (db.events.filter (fun e => decide (e.device_id = did))).length ∧
      rep.events = (get_events db did 200).take 20 ∧
      List.Pairwise eventDesc rep.events) := by
  constructor
  · intro hne
    unfold export_report
    rw [get_device_error_of_not_exists db did hne]
    exact ⟨_, rfl⟩
  · intro rep hrep
    unfold export_report at hrep
    cases hd : get_device db did with
    | error e => rw [hd] at hrep; exact absurd hrep (by simp)
    | ok d =>
      rw [hd] at hrep
      simp only [Except.ok.injEq] at hrep
      subst hrep
      refine ⟨?_, rfl, ?_⟩
      · show (get_events db did 200).length = _
        unfold get_events
        rw [List.length_take, List.length_insertionSort]
      · show List.Pairwise eventDesc ((get_events db did 200).take 20)
        unfold get_events
        exact List.Pairwise.sublist
          ((List.take_sublist _ _).trans (List.take_sublist _ _))
          (List.sorted_insertionSort eventDesc _)

/-- Witness for the amended C8: a device with one stored event. -/
theorem C8_export_report_witness :
    (⟨wid8, 7, 5, [], 1, [⟨0, wid8, PowerEventType.discharge, 0, 2, none⟩]⟩ :
        Report).event_count =
      min 200 (wdb8.events.filter (fun e => decide (e.device_id = wid8))).length ∧
    (⟨wid8, 7, 5, [], 1, [⟨0, wid8, PowerEventType.discharge, 0, 2, none⟩]⟩ :
        Report).events = (get_events wdb8 wid8 200).take 20 ∧
    List.Pairwise eventDesc
      (⟨wid8, 7, 5, [], 1, [⟨0, wid8, PowerEventType.discharge, 0, 2, none⟩]⟩ :
        Report).events :=
  (C8_export_report wdb8 wid8 7).2
    ⟨wid8, 7, 5, [], 1, [⟨0, wid8, PowerEventType.discharge, 0, 2, none⟩]⟩ rfl

set_option maxRecDepth 4000 in
/-- Counterexample to C8 as stated: with 201 recorded events, the event_count
field of the report is 200 (the fetch limit), not the total 201. -/
theorem C8_counterexample :
    ∃ rep, export_report cexDB8 wid8c 7 = Except.ok rep ∧
      rep.event_count ≠
        (cexDB8.events.filter (fun e => decide (e.device_id = wid8c))).length := by
  have hfilter : cexDB8.events.filter (fun e => decide (e.device_id = wid8c)) =
      cexDB8.events := by
    rw [List.filter_eq_self]
    intro a ha
    obtain ⟨i, _, rfl⟩ := List.mem_map.mp ha
    simp
  have hlen : cexDB8.events.length = 201 := by
    show ((List.range 201).map _).length = 201
    rw [List.length_map, List.length_range]
  refine ⟨⟨wid8c, 7, cexDB8.clock,
    (list_meters cexDB8 (some wid8c)).map (meter_report cexDB8 7),
    (get_events cexDB8 wid8c 200).length, (get_events cexDB8 wid8c 200).take 20⟩, ?_, ?_⟩
  · unfold export_report
    rw [show get_device cexDB8 wid8c = Except.ok ⟨wid8c, wid8c, 3, none⟩ from rfl]
  · show (get_events cexDB8 wid8c 200).length ≠ _
    unfold get_events
    rw [List.length_take, List.length_insertionSort, hfilter, hlen]
    decide

theorem log_power_fst_ok (db : DB) (mid : ℕ) (v c : ℚ) (cp : Option ℚ)
    (m : PowerMeter) (r' : PowerReading)
    (hm : get_meter db mid = Except.ok m)
    (h1 : (log_power db mid v c cp).1 = Except.ok r') :
    r' = ⟨db.nextId, mid, v, c, pyRound (v * c) 4,
      clamp (cp.getD m.charge_pct), db.clock⟩ := by
  unfold log_power at h1
  rw [log_power_txn1_eq db mid v c cp m hm] at h1
  dsimp only at h1
  split at h1
  · split at h1
    · split at h1
      · exact absurd h1 (by simp)
      · injection h1 with h2
        exact h2.symm
    · split at h1
      · split at h1
        · exact absurd h1 (by simp)
        · injection h1 with h2
          exact h2.symm
      · injection h1 with h2
        exact h2.symm
  · injection h1 with h2
    exact h2.symm

/-- C9: a persisted Reading with timestamp inside the window is returned by
get_history, in ascending timestamp order; a persisted Event is returned by
get_events whenever the limit covers the event count of the device, in descending
timestamp order; and the Reading returned by log_power is persisted. -/
theorem C9_roundtrip (db : DB) (mid : ℕ) (hours : ℕ) (r : PowerReading)
    (did : String) (limit : ℕ) (e : PowerEvent) :
    (r ∈ db.readings → r.meter_id = mid → db.clock - hours ≤ r.timestamp →
      r ∈ get_history db mid hours) ∧
    List.Pairwise readingAsc (get_history db mid hours) ∧
    (e ∈ db.events → e.device_id = did →
      (db.events.filter (fun x => decide (x.device_id = did))).length ≤ limit →
      e ∈ get_events db did limit) ∧
    List.Pairwise eventDesc (get_events db did limit) ∧
    (∀ v c cp r', (log_power db mid v c cp).1 = Except.ok r' →
      r' ∈ (log_power db mid v c cp).2.readings) := by
  refine ⟨?_, ?_, ?_, ?_, ?_⟩
  · intro hr hmid hts
    unfold get_history
    dsimp only
    rw [List.mem_insertionSort]
    exact List.mem_filter.mpr ⟨hr, by simp [hmid, hts]⟩
  · exact List.sorted_insertionSort readingAsc _
  · intro he hdid hlim
    unfold get_events
    rw [List.take_of_length_le (by rw [List.length_insertionSort]; exact hlim),
      List.mem_insertionSort]
    exact List.mem_filter.mpr ⟨he, by simp [hdid]⟩
  · exact List.Pairwise.sublist (List.take_sublist _ _)
      (List.sorted_insertionSort eventDesc _)
  · intro v c cp r' h1
    cases hm : get_meter db mid with
    | error err =>
      unfold log_power log_power_txn1 at h1
      rw [hm] at h1
      exact absurd h1 (by simp)
    | ok m =>
      obtain ⟨hrd, _, _⟩ := log_power_snd_spec db mid v c cp m hm
      rw [hrd, log_power_fst_ok db mid v c cp m r' hm h1]
      exact List.mem_append_right _ (List.mem_singleton_self _)

/-- Witness for C9 on a store holding one reading and one event. -/
theorem C9_roundtrip_witness :
    (⟨1, 0, 0, 0, 0, 50, 4⟩ : PowerReading) ∈ get_history wdb9 0 10 ∧
    (⟨2, wid9, PowerEventType.restore, 0, 6, none⟩ : PowerEvent) ∈
      get_events wdb9 wid9 50 :=
  ⟨((C9_roundtrip wdb9 0 10 ⟨1, 0, 0, 0, 0, 50, 4⟩ wid9 50
      ⟨2, wid9, PowerEventType.restore, 0, 6, none⟩).1
    (List.mem_singleton_self _) rfl (by decide)),
   ((C9_roundtrip wdb9 0 10 ⟨1, 0, 0, 0, 0, 50, 4⟩ wid9 50
      ⟨2, wid9, PowerEventType.restore, 0, 6, none⟩).2.2.1
    (List.mem_singleton_self _) rfl (by decide))⟩

/-- Witness for the amended C6 on the concrete low-battery scenario. -/
theorem C6_two_phase_commit_witness :
    db6mid.readings = cexDB6.readings ++ [r6] ∧
    db6mid.meters = cexDB6.meters.map (fun mm => if mm.id = 0 then
      { mm with voltage := 0, current_draw := 0, charge_pct := r6.charge_pct } else mm) ∧
    db6mid.events = cexDB6.events ∧
    db6mid ∈ log_power_observable cexDB6 0 0 0 (some 3) ∧
    (log_power cexDB6 0 0 0 (some 3)).2.readings = db6mid.readings ∧
    (log_power cexDB6 0 0 0 (some 3)).2.meters = db6mid.meters ∧
    ((log_power cexDB6 0 0 0 (some 3)).2.events = db6mid.events ∨
      ∃ e, (log_power cexDB6 0 0 0 (some 3)).2.events = db6mid.events ++ [e]) :=
  C6_two_phase_commit cexDB6 0 0 0 (some 3) r6
    ⟨0, wid6, MeterType.battery, 0, 0, 50, 50, none⟩ db6mid rfl
